import Mathlib

/-!
Verification of the plotting module of `wildfire-satellite-analysis`
(`src/plotting.py`) against its natural-language specification.

The module is a set of presentation functions over a table of matched
MODIS/VIIRS fire detections.  We embed the data model and the four public
functions shallowly:

* a pandas row becomes the structure `MatchRow`; the table is a `List MatchRow`;
* floating-point column values become rationals; pandas' NaN result for the
  mean of an empty column becomes `Option.none`, with NaN propagation through
  `+` and `/ 2` modelled by `nanAdd` / `nanHalf`;
* a folium map becomes the structure `FoliumMap`, whose children record the
  circle markers, polylines, feature groups and layer control added to it;
* side effects (saving HTML, writing/removing files, launching a headless
  browser) become explicit effect values and an explicit `SysState`;
* Python exceptions become `Except`: propagation of an exception skips the
  rest of the function body, exactly as in the source.
-/

namespace Wildfire

/-- A calendar timestamp, the shape of the datetime-valued entries of the
`modis_time` / `viirs_time` columns. -/
structure DateTime where
  year : Nat
  month : Nat
  day : Nat
  hour : Nat
  minute : Nat
  second : Nat
deriving DecidableEq

/-- A value held by a time column: either a datetime object or a plain
string.  The two map functions treat these differently (string interpolation
vs. a strftime format spec). -/
inductive TimeValue where
  | dt : DateTime → TimeValue
  | str : String → TimeValue
deriving DecidableEq

/-- Zero-pad a number to two digits, as `%m`, `%d`, `%H`, `%M`, `%S` do. -/
def pad2 (n : Nat) : String :=
  if n < 10 then "0" ++ toString n else toString n

/-- Zero-pad a year to four digits, as `%Y` does for the years in scope. -/
def pad4 (n : Nat) : String :=
  if n < 10 then "000" ++ toString n
  else if n < 100 then "00" ++ toString n
  else if n < 1000 then "0" ++ toString n
  else toString n

/-- strftime with the fixed pattern `%Y-%m-%d %H:%M` used in
`create_map_screenshot`. -/
def formatYmdHM (t : DateTime) : String :=
  pad4 t.year ++ "-" ++ pad2 t.month ++ "-" ++ pad2 t.day ++ " "
    ++ pad2 t.hour ++ ":" ++ pad2 t.minute

/-- `str()` of a datetime value: `%Y-%m-%d %H:%M:%S`. -/
def formatYmdHMS (t : DateTime) : String :=
  formatYmdHM t ++ ":" ++ pad2 t.second

/-- Python `str(v)` for a time-column value: a datetime renders with seconds,
a plain string is itself.  This is what the f-string `{match['modis_time']}`
of `plot_matches_interactive_map` performs. -/
def pyStrTime : TimeValue → String
  | TimeValue.dt t => formatYmdHMS t
  | TimeValue.str v => v

/-- Python `format(v, spec)` for a time-column value, restricted to the two
format specs the source uses: the empty spec (plain interpolation) and the
strftime pattern of `create_map_screenshot`.  A datetime delegates to
strftime; a plain string accepts only the empty spec and raises `ValueError`
on the strftime pattern, because `str.__format__` rejects it as an invalid
format specifier. -/
def pyFormatTime : TimeValue → String → Except String String
  | TimeValue.dt t, spec =>
      if spec = "%Y-%m-%d %H:%M" then Except.ok (formatYmdHM t)
      else Except.ok (formatYmdHMS t)
  | TimeValue.str v, spec =>
      if spec = "" then Except.ok v
      else Except.error "ValueError: Invalid format specifier"

/-- One row of the matched-pairs table.  `modis_confidence` and
`modis_brightness` are the optional columns: `none` models a row in which the
field is absent, which `Series.get` resolves to the supplied default. -/
structure MatchRow where
  modis_lat : ℚ
  modis_lon : ℚ
  viirs_lat : ℚ
  viirs_lon : ℚ
  modis_time : TimeValue
  viirs_time : TimeValue
  modis_confidence : Option ℚ
  modis_brightness : Option ℚ
  time_diff_minutes : ℚ
  distance_km : ℚ
deriving DecidableEq

/-- pandas `Series.mean()` over one of the (always-present, numeric) columns:
NaN — modelled as `none` — on an empty column, the arithmetic mean
otherwise. -/
def seriesMean (xs : List ℚ) : Option ℚ :=
  if xs = [] then none else some (xs.sum / xs.length)

/-- Addition with NaN propagation (`none` stands for NaN). -/
def nanAdd : Option ℚ → Option ℚ → Option ℚ
  | some a, some b => some (a + b)
  | _, _ => none

/-- Halving with NaN propagation (`none` stands for NaN). -/
def nanHalf : Option ℚ → Option ℚ
  | some a => some (a / 2)
  | none => none

/-- Python `{x:.1f}`: fixed-point rendering with one digit after the decimal
point.  (Python rounds exact halves to even; the claims never exercise a tie,
so `round` is used here.) -/
def formatFixed1 (q : ℚ) : String :=
  let n : Int := round (q * 10)
  (if n < 0 then "-" else "") ++ toString (n.natAbs / 10) ++ "." ++ toString (n.natAbs % 10)

/-- Rendering of an optional popup attribute: `match.get(col, 'N/A')`
interpolated into the f-string.  A present rational renders as its string
form (the numeral rendering of the underlying float is abstracted); an absent
one renders as the sentinel `"N/A"`. -/
def renderOptAttr : Option ℚ → String
  | none => "N/A"
  | some q => toString q

/-- The MODIS popup f-string of `plot_matches_interactive_map`
(lines 54-60 of the source, whitespace included). -/
def modisPopup (row : MatchRow) : String :=
  "\n            MODIS Detection<br>\n            Time: " ++ pyStrTime row.modis_time
    ++ "<br>\n            Confidence: " ++ renderOptAttr row.modis_confidence
    ++ "<br>\n            Brightness: " ++ renderOptAttr row.modis_brightness
    ++ "<br>\n            Time Difference: " ++ formatFixed1 row.time_diff_minutes
    ++ " min\n        "

/-- The VIIRS popup f-string of `plot_matches_interactive_map`
(lines 71-75 of the source). -/
def viirsPopup (row : MatchRow) : String :=
  "\n            VIIRS Detection<br>\n            Time: " ++ pyStrTime row.viirs_time
    ++ "<br>\n            Distance: " ++ formatFixed1 row.distance_km
    ++ " km\n        "

/-- A folium `CircleMarker`. -/
structure CircleMarker where
  location : ℚ × ℚ
  radius : Nat
  color : String
  fill : Bool
  popup : Option String
  weight : Nat
deriving DecidableEq

/-- A folium `PolyLine`. -/
structure PolyLine where
  locations : List (ℚ × ℚ)
  color : String
  weight : Nat
  opacity : ℚ
deriving DecidableEq

/-- A leaf overlay added to a feature group or directly to a map. -/
inductive Overlay where
  | marker : CircleMarker → Overlay
  | line : PolyLine → Overlay
deriving DecidableEq

/-- A folium `FeatureGroup` with the overlays added to it, in order. -/
structure FeatureGroup where
  name : String
  children : List Overlay
deriving DecidableEq

/-- A direct child of a folium map. -/
inductive MapChild where
  | overlay : Overlay → MapChild
  | group : FeatureGroup → MapChild
  | layerControl : MapChild
deriving DecidableEq

/-- A folium `Map`: its constructor arguments, the children added to it, and
the raw HTML elements attached to its root.  The centre coordinates are
`Option ℚ` because the computed centre can be NaN (`none`). -/
structure FoliumMap where
  location : Option ℚ × Option ℚ
  zoom_start : Nat
  tiles : String
  children : List MapChild
  htmlElements : List String
deriving DecidableEq

/-- Whether an overlay is a circle marker. -/
def Overlay.isMarker : Overlay → Bool
  | Overlay.marker _ => true
  | Overlay.line _ => false

/-- Number of circle markers in a feature group. -/
def FeatureGroup.markerCount (g : FeatureGroup) : Nat :=
  (g.children.filter Overlay.isMarker).length

/-- Number of polylines in a feature group. -/
def FeatureGroup.lineCount (g : FeatureGroup) : Nat :=
  (g.children.filter (fun o => !o.isMarker)).length

/-- Number of circle markers contributed by one map child. -/
def MapChild.markerCount : MapChild → Nat
  | MapChild.overlay o => if o.isMarker then 1 else 0
  | MapChild.group g => g.markerCount
  | MapChild.layerControl => 0

/-- Number of polylines contributed by one map child. -/
def MapChild.lineCount : MapChild → Nat
  | MapChild.overlay o => if o.isMarker then 0 else 1
  | MapChild.group g => g.lineCount
  | MapChild.layerControl => 0

/-- Total number of circle markers anywhere on a map. -/
def FoliumMap.markerCount (m : FoliumMap) : Nat :=
  (m.children.map MapChild.markerCount).sum

/-- Total number of polylines (connectors) anywhere on a map. -/
def FoliumMap.lineCount (m : FoliumMap) : Nat :=
  (m.children.map MapChild.lineCount).sum

/-- The popups of all circle markers on a map, in insertion order. -/
def Overlay.popupOf : Overlay → Option (Option String)
  | Overlay.marker c => some c.popup
  | Overlay.line _ => none

/-- Popups of the markers of one map child, in order. -/
def MapChild.popups : MapChild → List (Option String)
  | MapChild.overlay o => (Overlay.popupOf o).toList
  | MapChild.group g => g.children.filterMap Overlay.popupOf
  | MapChild.layerControl => []

/-- Popups of all markers on a map, in insertion order. -/
def FoliumMap.markerPopups (m : FoliumMap) : List (Option String) :=
  (m.children.map MapChild.popups).flatten

/-- The red MODIS circle marker built for one row (lines 61-68). -/
def modisMarker (row : MatchRow) : CircleMarker :=
  { location := (row.modis_lat, row.modis_lon), radius := 6, color := "red",
    fill := true, popup := some (modisPopup row), weight := 2 }

/-- The blue VIIRS circle marker built for one row (lines 76-83). -/
def viirsMarker (row : MatchRow) : CircleMarker :=
  { location := (row.viirs_lat, row.viirs_lon), radius := 6, color := "blue",
    fill := true, popup := some (viirsPopup row), weight := 2 }

/-- The gray connector polyline built for one row (lines 87-95). -/
def matchLine (row : MatchRow) : PolyLine :=
  { locations := [(row.modis_lat, row.modis_lon), (row.viirs_lat, row.viirs_lon)],
    color := "gray", weight := 1, opacity := 1/2 }

/-- The fixed title overlay of the interactive map (lines 106-117). -/
def title_html : String :=
  "\n        <div style=\"position: fixed;\n                    top: 10px; left: 50px; width: 300px; z-index:9999;\n                    background-color: white; padding: 10px; border-radius: 5px;\">\n            <h4>Fire Detections: MODIS vs VIIRS</h4>\n            <p style=\"font-size: 12px;\">\n                Red: MODIS detections<br>\n                Blue: VIIRS detections<br>\n                Gray lines: Matched pairs\n            </p>\n        </div>\n    "

/-- An observable side effect of the interactive map builder. -/
inductive Effect where
  | saveHtml : String → Effect
deriving DecidableEq

/-- The centre computation of lines 37-38: half the sum of the per-column
means, with pandas' NaN for an empty column (`none`) propagating through the
addition and the halving.  This computation itself never raises. -/
def mapCenter (matches_df : List MatchRow) : Option ℚ × Option ℚ :=
  (nanHalf (nanAdd (seriesMean (matches_df.map MatchRow.modis_lat))
      (seriesMean (matches_df.map MatchRow.viirs_lat))),
   nanHalf (nanAdd (seriesMean (matches_df.map MatchRow.modis_lon))
      (seriesMean (matches_df.map MatchRow.viirs_lon))))

/-- folium's `validate_location`, run by the `folium.Map` constructor
(line 40): a NaN component raises
`ValueError: Location values cannot contain NaNs`. -/
def validateLocation : Option ℚ × Option ℚ → Except String (ℚ × ℚ)
  | (some la, some lo) => Except.ok (la, lo)
  | _ => Except.error "ValueError: Location values cannot contain NaNs"

/-- The `modis_group` feature group (line 47, filled by the loop at
lines 52-68): one red marker per row. -/
def modisGroup (matches_df : List MatchRow) : FeatureGroup :=
  ⟨"MODIS Detections", matches_df.map (fun row => Overlay.marker (modisMarker row))⟩

/-- The `viirs_group` feature group (line 48, filled at lines 76-83): one
blue marker per row. -/
def viirsGroup (matches_df : List MatchRow) : FeatureGroup :=
  ⟨"VIIRS Detections", matches_df.map (fun row => Overlay.marker (viirsMarker row))⟩

/-- The `lines_group` feature group (line 49, filled at lines 86-95): one
connector per row. -/
def linesGroup (matches_df : List MatchRow) : FeatureGroup :=
  ⟨"Matches", matches_df.map (fun row => Overlay.line (matchLine row))⟩

/-- The children added to the interactive map (lines 98-103): both marker
groups, the lines group only under `show_lines`, then the layer control. -/
def interactiveChildren (matches_df : List MatchRow) (show_lines : Bool) : List MapChild :=
  [MapChild.group (modisGroup matches_df), MapChild.group (viirsGroup matches_df)]
    ++ (if show_lines then [MapChild.group (linesGroup matches_df)] else [])
    ++ [MapChild.layerControl]

/-- `plot_matches_interactive_map` (lines 24-124): computes the centre as the
half-sum of the per-column means; `folium.Map` then validates the location
and raises on a NaN centre (empty table).  Otherwise it builds one MODIS
marker and one VIIRS marker per row grouped into named feature groups, one
connector per row when `show_lines` is set, adds the lines group to the map
only under `show_lines`, attaches a layer control and the title element,
saves to HTML exactly when a path is supplied, and returns the map object. -/
def plot_matches_interactive_map (matches_df : List MatchRow) (show_lines : Bool)
    (save_html : Option String) : Except String (FoliumMap × List Effect) :=
  match validateLocation (mapCenter matches_df) with
  | Except.error e => Except.error e
  | Except.ok c =>
    let m : FoliumMap :=
      { location := (some c.1, some c.2), zoom_start := 6, tiles := "CartoDB positron",
        children := interactiveChildren matches_df show_lines,
        htmlElements := [title_html] }
    Except.ok (m, match save_html with
      | some path => [Effect.saveHtml path]
      | none => [])

/-- The fixed legend overlay of the screenshot map (lines 179-192). -/
def legend_html : String :=
  "\n        <div style=\"position: absolute;\n                    bottom: 10px; left: 10px;\n                    z-index: 1000;\n                    background-color: white;\n                    padding: 6px;\n                    border-radius: 4px;\n                    font-size: 12px;\n                    line-height: 1.5;\">\n            <div><span style=\"color: red;\">●</span> MODIS detections</div>\n            <div><span style=\"color: blue;\">●</span> VIIRS detections</div>\n            <div><span style=\"color: gray;\">―</span> Matched pairs</div>\n        </div>\n    "

/-- The red MODIS marker of `create_map_screenshot` (lines 149-156): its popup
applies the strftime format spec `%Y-%m-%d %H:%M` to `modis_time`, which
raises when the value is a plain string. -/
def screenshotModisMarker (row : MatchRow) : Except String CircleMarker :=
  (pyFormatTime row.modis_time "%Y-%m-%d %H:%M").map fun t =>
    { location := (row.modis_lat, row.modis_lon), radius := 6, color := "red",
      fill := true, popup := some ("MODIS: " ++ t), weight := 2 }

/-- The blue VIIRS marker of `create_map_screenshot` (lines 159-166), with the
same strftime format spec applied to `viirs_time`. -/
def screenshotViirsMarker (row : MatchRow) : Except String CircleMarker :=
  (pyFormatTime row.viirs_time "%Y-%m-%d %H:%M").map fun t =>
    { location := (row.viirs_lat, row.viirs_lon), radius := 6, color := "blue",
      fill := true, popup := some ("VIIRS: " ++ t), weight := 2 }

/-- The per-row loop of `create_map_screenshot` (lines 147-177): for each row,
a MODIS marker, a VIIRS marker, and — when `show_lines` — the connector, added
directly to the map; a formatting exception aborts the whole loop. -/
def screenshotOverlays (show_lines : Bool) : List MatchRow → Except String (List Overlay)
  | [] => Except.ok []
  | row :: rest => do
    let mm ← screenshotModisMarker row
    let vm ← screenshotViirsMarker row
    let tail ← screenshotOverlays show_lines rest
    pure (([Overlay.marker mm, Overlay.marker vm]
      ++ (if show_lines then [Overlay.line (matchLine row)] else [])) ++ tail)

/-- The map built by `create_map_screenshot` (lines 140-193) before the page
is composed: caller-given centre and zoom, markers and connectors added
directly (no feature groups, no layer control), and the legend element. -/
def buildScreenshotMap (matches_df : List MatchRow) (center_coords : ℚ × ℚ)
    (zoom_level : Nat) (show_lines : Bool) : Except String FoliumMap := do
  let overlays ← screenshotOverlays show_lines matches_df
  pure { location := (some center_coords.1, some center_coords.2),
         zoom_start := zoom_level, tiles := "CartoDB positron",
         children := overlays.map MapChild.overlay,
         htmlElements := [legend_html] }

/-- The filesystem / browser-process state surrounding a
`create_map_screenshot` call.  Only file presence is modelled, not file
contents. -/
structure SysState where
  files : List String
  browserRunning : Bool
deriving DecidableEq

/-- Writing a file: its name becomes present on disk. -/
def insertFile (name : String) (files : List String) : List String :=
  if name ∈ files then files else name :: files

/-- `os.remove`: the name is no longer present on disk. -/
def removeFile (name : String) (files : List String) : List String :=
  files.filter (fun f => f ≠ name)

/-- `create_map_screenshot` (lines 126-238).  The fallible external steps —
browser launch (line 231) and screenshot capture (line 236) — are oracles
`launchOk` / `screenshotOk`.  The body is sequential and exceptions
propagate: a popup-formatting error occurs while building the map, before
the temporary file is written; a launch or screenshot failure occurs after
`temp_map.html` is written and skips both `browser.quit()` (line 237) and
`os.remove` (line 238).  On success the screenshot is written, the browser
is shut down and the temporary file is removed.  An error carries the state
left behind. -/
def create_map_screenshot (matches_df : List MatchRow) (center_coords : ℚ × ℚ)
    (zoom_level : Nat) (width : Nat) (height : Nat) (output_file : String)
    (show_lines : Bool) (s0 : SysState) (launchOk : Bool) (screenshotOk : Bool) :
    Except (String × SysState) SysState :=
  match buildScreenshotMap matches_df center_coords zoom_level show_lines with
  | Except.error e => Except.error (e, s0)
  | Except.ok _m =>
    let s1 : SysState := { s0 with files := insertFile "temp_map.html" s0.files }
    if launchOk then
      let s2 : SysState := { s1 with browserRunning := true }
      if screenshotOk then
        let s3 : SysState := { s2 with files := insertFile output_file s2.files }
        let s4 : SysState := { s3 with browserRunning := false }
        let s5 : SysState := { s4 with files := removeFile "temp_map.html" s4.files }
        Except.ok s5
      else Except.error ("WebDriverException: screenshot failed", s2)
    else Except.error ("WebDriverException: browser launch failed", s1)

/-- Python `str.lower()`, restricted to the ASCII case folding the labels in
scope use. -/
def pyLower (s : String) : String :=
  String.mk (s.data.map Char.toLower)

/-- Python `str.replace(old, new)` on character lists: every non-overlapping
occurrence of `old`, scanned left to right, is replaced by `new`. -/
def replaceChars (old new : List Char) : List Char → List Char
  | [] => []
  | c :: rest =>
    if old ≠ [] ∧ old.isPrefixOf (c :: rest)
    then new ++ replaceChars old new (rest.drop (old.length - 1))
    else c :: replaceChars old new rest
termination_by l => l.length
decreasing_by
  · simp only [List.length_cons, List.length_drop]
    omega
  · simp only [List.length_cons]
    omega

/-- Python `str.replace(old, new)`. -/
def pyReplace (s old new : String) : String :=
  String.mk (replaceChars old.data new.data s.data)

/-- The output path of `plot_histogram` (line 258):
`f-string latex_plots/histogram_` + `dataset_name.lower().replace(" ", "_")`
+ `.pgf`. -/
def histogramPath (dataset_name : String) : String :=
  "latex_plots/histogram_" ++ pyReplace (pyLower dataset_name) " " "_" ++ ".pgf"

/-- The output path of `plot_time_distance` (line 277). -/
def timeDistancePath (dataset_name : String) : String :=
  "latex_plots/time_distance_" ++ pyReplace (pyLower dataset_name) " " "_" ++ ".pgf"

/-- A chart element drawn on the current matplotlib figure. -/
inductive PlotElem where
  | histplot : List ℚ → Nat → String → ℚ → PlotElem
  | scatterplot : List ℚ → List ℚ → ℚ → PlotElem
  | axvline : ℚ → String → String → ℚ → PlotElem
deriving DecidableEq

/-- The state of a matplotlib figure. -/
structure Figure where
  plots : List PlotElem
  xlabel : Option String
  ylabel : Option String
  title : Option String
deriving DecidableEq

/-- The observable outcome of one of the statistical plotters: the files
saved by `savefig` (path together with a snapshot of the figure at save
time) and the figures displayed by `show`. -/
structure PltResult where
  saved : List (String × Figure)
  shown : List Figure
deriving DecidableEq

/-- `plot_histogram` (lines 240-261): histogram of `time_diff_minutes` over
30 bins, axis labels, reference line at 0, `savefig` to the label-derived
path, and only then the title, then `show`. -/
def plot_histogram (matches_df : List MatchRow) (dataset_name : String) : PltResult :=
  let fig0 : Figure := { plots := [], xlabel := none, ylabel := none, title := none }
  let fig1 : Figure := { fig0 with plots := fig0.plots
    ++ [PlotElem.histplot (matches_df.map MatchRow.time_diff_minutes) 30 "blue" (6/10)] }
  let fig2 : Figure := { fig1 with xlabel := some ("Time Difference (minutes)\nNegative = "
    ++ dataset_name ++ " Earlier, Positive = VIIRS Earlier") }
  let fig3 : Figure := { fig2 with ylabel := some "Count" }
  let fig4 : Figure := { fig3 with plots := fig3.plots
    ++ [PlotElem.axvline 0 "red" "--" (1/2)] }
  let savedAt : List (String × Figure) := [(histogramPath dataset_name, fig4)]
  let fig5 : Figure := { fig4 with title := some ("Distribution of Detection Time Differences ("
    ++ dataset_name ++ " vs. VIIRS)") }
  { saved := savedAt, shown := [fig5] }

/-- `plot_time_distance` (lines 263-280): scatter of `distance_km` against
`time_diff_minutes`, axis labels, `savefig` to the label-derived path, and
only then the title, then `show`. -/
def plot_time_distance (matches_df : List MatchRow) (dataset_name : String) : PltResult :=
  let fig0 : Figure := { plots := [], xlabel := none, ylabel := none, title := none }
  let fig1 : Figure := { fig0 with plots := fig0.plots
    ++ [PlotElem.scatterplot (matches_df.map MatchRow.distance_km)
          (matches_df.map MatchRow.time_diff_minutes) (1/2)] }
  let fig2 : Figure := { fig1 with xlabel := some "Distance between detections (km)" }
  let fig3 : Figure := { fig2 with ylabel := some "Time Difference (minutes)" }
  let savedAt : List (String × Figure) := [(timeDistancePath dataset_name, fig3)]
  let fig4 : Figure := { fig3 with title := some ("Time Difference vs. Spatial Distance ("
    ++ dataset_name ++ " vs. VIIRS)") }
  { saved := savedAt, shown := [fig4] }

/-- An operation the source performs on the matched-pairs table, together
with the mutating operations pandas offers that the source never uses. -/
inductive DfOp where
  | readCol : String → DfOp
  | iterRows : DfOp
  | setRow : Nat → MatchRow → DfOp
  | appendRow : MatchRow → DfOp
  | dropRow : Nat → DfOp
deriving DecidableEq

/-- Semantics of a table operation: reads leave the table untouched, the
mutating operations change it. -/
def applyDfOp (df : List MatchRow) : DfOp → List MatchRow
  | DfOp.readCol _ => df
  | DfOp.iterRows => df
  | DfOp.setRow i row => df.set i row
  | DfOp.appendRow row => df ++ [row]
  | DfOp.dropRow i => df.eraseIdx i

/-- The table operations `plot_matches_interactive_map` performs, in source
order: the four column means of lines 37-38, then `iterrows` (line 52). -/
def plot_matches_tableOps : List DfOp :=
  [DfOp.readCol "modis_lat", DfOp.readCol "viirs_lat",
   DfOp.readCol "modis_lon", DfOp.readCol "viirs_lon", DfOp.iterRows]

/-- The table operations `create_map_screenshot` performs: `iterrows`
(line 147). -/
def create_map_screenshot_tableOps : List DfOp :=
  [DfOp.iterRows]

/-- The table operations `plot_histogram` performs: the column read of
`sns.histplot` (lines 243-249). -/
def plot_histogram_tableOps : List DfOp :=
  [DfOp.readCol "time_diff_minutes"]

/-- The table operations `plot_time_distance` performs: the two column reads
of `sns.scatterplot` (lines 266-271). -/
def plot_time_distance_tableOps : List DfOp :=
  [DfOp.readCol "distance_km", DfOp.readCol "time_diff_minutes"]

/-! ### Spec-side definitions, written from the specification's words -/

/-- Spec-side: the arithmetic mean of a column "across all rows". -/
def columnAverage (xs : List ℚ) : ℚ :=
  xs.sum / xs.length

/-- Spec-side centre latitude: "(mean of modis_lat + mean of viirs_lat) / 2",
the simple unweighted average of the two per-column means. -/
def specCenterLat (df : List MatchRow) : ℚ :=
  (columnAverage (df.map MatchRow.modis_lat) + columnAverage (df.map MatchRow.viirs_lat)) / 2

/-- Spec-side centre longitude: "(mean of modis_lon + mean of viirs_lon) / 2". -/
def specCenterLon (df : List MatchRow) : ℚ :=
  (columnAverage (df.map MatchRow.modis_lon) + columnAverage (df.map MatchRow.viirs_lon)) / 2

/-- Spec-side filename slug: "the label lower-cased with every space replaced
by an underscore", as a single pass over the characters. -/
def specSlug (label : String) : String :=
  String.mk ((label.data.map Char.toLower).map (fun c => if c = ' ' then '_' else c))

/-! ### Sample rows used to instantiate theorems with hypotheses -/

/-- A sample matched-pairs row with all fields present and datetime times. -/
def exRow : MatchRow :=
  { modis_lat := 48, modis_lon := 11, viirs_lat := 49, viirs_lon := 12,
    modis_time := TimeValue.dt ⟨2024, 5, 1, 10, 30, 0⟩,
    viirs_time := TimeValue.dt ⟨2024, 5, 1, 10, 45, 0⟩,
    modis_confidence := some 85, modis_brightness := some 330,
    time_diff_minutes := 15, distance_km := 2 }

/-- A sample row lacking the optional confidence/brightness fields. -/
def exRowNA : MatchRow :=
  { exRow with modis_confidence := none, modis_brightness := none }

/-- A sample row whose `modis_time` is a plain string, not a datetime. -/
def exRowStr : MatchRow :=
  { exRow with modis_time := TimeValue.str "2024-05-01 10:30:00" }

/-! ### Helper lemmas -/

theorem map_ne_nil {α β : Type} (f : α → β) {l : List α} (h : l ≠ []) :
    l.map f ≠ [] := by
  simpa [List.map_eq_nil_iff] using h

theorem markerCount_marker_map (nm : String) (f : MatchRow → CircleMarker)
    (l : List MatchRow) :
    FeatureGroup.markerCount ⟨nm, l.map fun row => Overlay.marker (f row)⟩ = l.length := by
  induction l with
  | nil => rfl
  | cons r t ih =>
    simpa [FeatureGroup.markerCount, List.filter_cons, Overlay.isMarker]
      using ih

theorem lineCount_marker_map (nm : String) (f : MatchRow → CircleMarker)
    (l : List MatchRow) :
    FeatureGroup.lineCount ⟨nm, l.map fun row => Overlay.marker (f row)⟩ = 0 := by
  induction l with
  | nil => rfl
  | cons r t ih =>
    simp only [List.map_cons, FeatureGroup.lineCount, List.filter_cons,
      Overlay.isMarker, Bool.not_true, Bool.false_eq_true, if_false]
    exact ih

theorem markerCount_line_map (nm : String) (f : MatchRow → PolyLine)
    (l : List MatchRow) :
    FeatureGroup.markerCount ⟨nm, l.map fun row => Overlay.line (f row)⟩ = 0 := by
  induction l with
  | nil => rfl
  | cons r t ih =>
    simp only [List.map_cons, FeatureGroup.markerCount, List.filter_cons,
      Overlay.isMarker, Bool.false_eq_true, if_false]
    exact ih

theorem lineCount_line_map (nm : String) (f : MatchRow → PolyLine)
    (l : List MatchRow) :
    FeatureGroup.lineCount ⟨nm, l.map fun row => Overlay.line (f row)⟩ = l.length := by
  induction l with
  | nil => rfl
  | cons r t ih =>
    simpa [FeatureGroup.lineCount, List.filter_cons, Overlay.isMarker]
      using ih

theorem mem_insertFile_self (nm : String) (files : List String) :
    nm ∈ insertFile nm files := by
  by_cases h : nm ∈ files <;> simp [insertFile, h]

theorem not_mem_removeFile_self (nm : String) (files : List String) :
    nm ∉ removeFile nm files := by
  simp [removeFile]

theorem replaceChars_single (a b : Char) (l : List Char) :
    replaceChars [a] [b] l = l.map (fun c => if c = a then b else c) := by
  induction l with
  | nil => simp [replaceChars]
  | cons c rest ih =>
    by_cases hc : c = a
    · simp [replaceChars, List.isPrefixOf, hc, ih]
    · simp [replaceChars, List.isPrefixOf, hc, ih, Ne.symm hc]

/-- The lower-then-replace pipeline of the source equals the spec's
single-pass description of the slug. -/
theorem pyReplace_pyLower_eq_specSlug (label : String) :
    pyReplace (pyLower label) " " "_" = specSlug label := by
  have hd : (" " : String).data = [' '] := rfl
  have hd2 : ("_" : String).data = ['_'] := rfl
  simp [pyReplace, pyLower, specSlug, hd, hd2, replaceChars_single]

/-- On a nonempty table every per-column mean is defined, so the centre is
the pair of half-sums of the per-column means. -/
theorem mapCenter_of_ne_nil {matches_df : List MatchRow} (h : matches_df ≠ []) :
    mapCenter matches_df
      = (some (specCenterLat matches_df), some (specCenterLon matches_df)) := by
  have h1 := map_ne_nil MatchRow.modis_lat h
  have h2 := map_ne_nil MatchRow.viirs_lat h
  have h3 := map_ne_nil MatchRow.modis_lon h
  have h4 := map_ne_nil MatchRow.viirs_lon h
  simp [mapCenter, seriesMean, nanAdd, nanHalf, specCenterLat, specCenterLon,
    columnAverage, h1, h2, h3, h4]

/-- On a nonempty table folium's location validation passes and
`plot_matches_interactive_map` returns the fully built map together with its
save effects. -/
theorem plot_matches_ok_of_ne_nil (matches_df : List MatchRow) (show_lines : Bool)
    (save_html : Option String) (h : matches_df ≠ []) :
    plot_matches_interactive_map matches_df show_lines save_html
      = Except.ok
        ({ location := (some (specCenterLat matches_df), some (specCenterLon matches_df)),
           zoom_start := 6, tiles := "CartoDB positron",
           children := interactiveChildren matches_df show_lines,
           htmlElements := [title_html] },
         match save_html with
         | some path => [Effect.saveHtml path]
         | none => []) := by
  simp [plot_matches_interactive_map, mapCenter_of_ne_nil h, validateLocation]

/-! ### The claims -/

/-- C1: for every matched-pairs table with at least one row,
`plot_matches_interactive_map` computes the map's initial centre latitude as
(mean of `modis_lat` + mean of `viirs_lat`) / 2 and its centre longitude as
(mean of `modis_lon` + mean of `viirs_lon`) / 2 — the simple unweighted
average of the two per-column means. -/
theorem plot_matches_center_is_mean_midpoint (matches_df : List MatchRow)
    (show_lines : Bool) (save_html : Option String) (h : matches_df ≠ []) :
    ∃ m effs, plot_matches_interactive_map matches_df show_lines save_html
        = Except.ok (m, effs) ∧
      m.location = (some (specCenterLat matches_df), some (specCenterLon matches_df)) :=
  ⟨_, _, plot_matches_ok_of_ne_nil matches_df show_lines save_html h, rfl⟩

/-- Witness for C1 at a one-row table. -/
theorem plot_matches_center_is_mean_midpoint_witness :
    ([exRow] ≠ ([] : List MatchRow)) ∧
    ∃ m effs, plot_matches_interactive_map [exRow] true none = Except.ok (m, effs) ∧
      m.location = (some (specCenterLat [exRow]), some (specCenterLon [exRow])) :=
  ⟨by simp, plot_matches_center_is_mean_midpoint [exRow] true none (by simp)⟩

/-- Counterexample for C2: at the empty table the function raises folium's
NaN-location `ValueError` and produces no map whose markers or connectors
could be counted, so the claim's quantification over every table fails. -/
theorem plot_matches_counts_raise_on_empty_table :
    plot_matches_interactive_map [] true none
      = Except.error "ValueError: Location values cannot contain NaNs" := rfl

/-- C2 (amended to tables with at least one row, where the map is actually
produced): `plot_matches_interactive_map` adds exactly two circle markers
per row; with `show_lines` it adds exactly one connecting polyline per row,
and without `show_lines` the produced map contains zero connectors. -/
theorem plot_matches_marker_and_line_counts (matches_df : List MatchRow)
    (show_lines : Bool) (save_html : Option String) (h : matches_df ≠ []) :
    ∃ m effs, plot_matches_interactive_map matches_df show_lines save_html
        = Except.ok (m, effs) ∧
      m.markerCount = 2 * matches_df.length ∧
      m.lineCount = (if show_lines then matches_df.length else 0) := by
  refine ⟨_, _, plot_matches_ok_of_ne_nil matches_df show_lines save_html h, ?_, ?_⟩
  · cases show_lines <;>
      simp [FoliumMap.markerCount, interactiveChildren, modisGroup, viirsGroup,
        linesGroup, MapChild.markerCount, markerCount_marker_map,
        markerCount_line_map, two_mul]
  · cases show_lines <;>
      simp [FoliumMap.lineCount, interactiveChildren, modisGroup, viirsGroup,
        linesGroup, MapChild.lineCount, lineCount_marker_map, lineCount_line_map]

/-- Witness for C2 at a one-row table. -/
theorem plot_matches_marker_and_line_counts_witness :
    ∃ m effs, plot_matches_interactive_map [exRow] true none = Except.ok (m, effs) ∧
      m.markerCount = 2 * [exRow].length ∧
      m.lineCount = (if true then [exRow].length else 0) :=
  plot_matches_marker_and_line_counts [exRow] true none (by simp)

/-- C3: the histogram is saved to `latex_plots/histogram_<slug>.pgf` and the
scatter to `latex_plots/time_distance_<slug>.pgf`, where `<slug>` is the
label lower-cased with every space replaced by an underscore; in particular
"MODIS Comparison" yields the two `modis_comparison` filenames. -/
theorem plot_filenames_are_label_slugs (matches_df : List MatchRow) (label : String) :
    (plot_histogram matches_df label).saved.map Prod.fst
        = ["latex_plots/histogram_" ++ specSlug label ++ ".pgf"] ∧
    (plot_time_distance matches_df label).saved.map Prod.fst
        = ["latex_plots/time_distance_" ++ specSlug label ++ ".pgf"] ∧
    histogramPath "MODIS Comparison" = "latex_plots/histogram_modis_comparison.pgf" ∧
    timeDistancePath "MODIS Comparison" = "latex_plots/time_distance_modis_comparison.pgf" := by
  refine ⟨?_, ?_, ?_, ?_⟩
  · simp [plot_histogram, histogramPath, pyReplace_pyLower_eq_specSlug]
  · simp [plot_time_distance, timeDistancePath, pyReplace_pyLower_eq_specSlug]
  · rw [histogramPath, pyReplace_pyLower_eq_specSlug]
    decide
  · rw [timeDistancePath, pyReplace_pyLower_eq_specSlug]
    decide

/-- C4: in both `plot_histogram` and `plot_time_distance` the figure is saved
before the title is set: the saved artifact carries no title, while the
figure subsequently displayed carries the title. -/
theorem plots_saved_untitled_shown_titled (matches_df : List MatchRow) (label : String) :
    ((plot_histogram matches_df label).saved.map (fun pf => pf.2.title) = [none]) ∧
    ((plot_histogram matches_df label).shown.map Figure.title
        = [some ("Distribution of Detection Time Differences (" ++ label ++ " vs. VIIRS)")]) ∧
    ((plot_time_distance matches_df label).saved.map (fun pf => pf.2.title) = [none]) ∧
    ((plot_time_distance matches_df label).shown.map Figure.title
        = [some ("Time Difference vs. Spatial Distance (" ++ label ++ " vs. VIIRS)")]) :=
  ⟨rfl, rfl, rfl, rfl⟩

/-- C5: `create_map_screenshot` removes `temp_map.html` exactly on the happy
path: after a successful run the file is gone and the browser is shut down;
if the browser launch or the screenshot fails after the file is written,
neither the removal nor the browser shutdown runs, so the file remains. -/
theorem create_map_screenshot_temp_file_lifecycle (matches_df : List MatchRow)
    (center : ℚ × ℚ) (zoom w ht : Nat) (out : String) (show_lines : Bool)
    (s0 : SysState) (m : FoliumMap)
    (hm : buildScreenshotMap matches_df center zoom show_lines = Except.ok m) :
    (∃ s, create_map_screenshot matches_df center zoom w ht out show_lines s0 true true
        = Except.ok s ∧ "temp_map.html" ∉ s.files ∧ s.browserRunning = false) ∧
    (∀ so, ∃ e s, create_map_screenshot matches_df center zoom w ht out show_lines s0 false so
        = Except.error (e, s) ∧ "temp_map.html" ∈ s.files
        ∧ s.browserRunning = s0.browserRunning) ∧
    (∃ e s, create_map_screenshot matches_df center zoom w ht out show_lines s0 true false
        = Except.error (e, s) ∧ "temp_map.html" ∈ s.files ∧ s.browserRunning = true) := by
  refine ⟨?_, ?_, ?_⟩
  · refine ⟨⟨removeFile "temp_map.html" (insertFile out (insertFile "temp_map.html" s0.files)),
        false⟩, ?_, not_mem_removeFile_self _ _, rfl⟩
    simp [create_map_screenshot, hm]
  · intro so
    refine ⟨"WebDriverException: browser launch failed",
      ⟨insertFile "temp_map.html" s0.files, s0.browserRunning⟩, ?_,
      mem_insertFile_self _ _, rfl⟩
    simp [create_map_screenshot, hm]
  · refine ⟨"WebDriverException: screenshot failed",
      ⟨insertFile "temp_map.html" s0.files, true⟩, ?_,
      mem_insertFile_self _ _, rfl⟩
    simp [create_map_screenshot, hm]

/-- Witness for C5 with an empty table and a pristine state. -/
theorem create_map_screenshot_temp_file_lifecycle_witness :
    ∃ s, create_map_screenshot [] (0, 0) 13 800 600 "map_screenshot.png" true
        ⟨[], false⟩ true true
      = Except.ok s ∧ "temp_map.html" ∉ s.files ∧ s.browserRunning = false :=
  (create_map_screenshot_temp_file_lifecycle [] (0, 0) 13 800 600 "map_screenshot.png"
    true ⟨[], false⟩ _ rfl).1

/-- C6: a row missing the optional `modis_confidence` / `modis_brightness`
fields still renders: its MODIS popup contains the sentinel `"N/A"` for each
missing attribute, and the map is produced with both popups instead of an
error being raised. -/
theorem modis_popup_renders_na_for_missing_fields (row : MatchRow)
    (hc : row.modis_confidence = none) (hb : row.modis_brightness = none) :
    (∃ m effs, plot_matches_interactive_map [row] true none = Except.ok (m, effs) ∧
      m.markerPopups = [some (modisPopup row), some (viirsPopup row)]) ∧
    (∃ pre mid post, modisPopup row = pre ++ "N/A" ++ mid ++ "N/A" ++ post) := by
  constructor
  · refine ⟨_, _, plot_matches_ok_of_ne_nil [row] true none (by simp), ?_⟩
    simp [FoliumMap.markerPopups, interactiveChildren, modisGroup, viirsGroup,
      linesGroup, MapChild.popups, Overlay.popupOf, modisMarker, viirsMarker, matchLine]
  · refine ⟨"\n            MODIS Detection<br>\n            Time: "
        ++ pyStrTime row.modis_time ++ "<br>\n            Confidence: ",
      "<br>\n            Brightness: ",
      "<br>\n            Time Difference: " ++ formatFixed1 row.time_diff_minutes
        ++ " min\n        ", ?_⟩
    simp only [modisPopup, hc, hb, renderOptAttr, String.append_assoc]

/-- Witness for C6 at a concrete row lacking both optional fields. -/
theorem modis_popup_renders_na_for_missing_fields_witness :
    (∃ m effs, plot_matches_interactive_map [exRowNA] true none = Except.ok (m, effs) ∧
      m.markerPopups = [some (modisPopup exRowNA), some (viirsPopup exRowNA)]) ∧
    (∃ pre mid post, modisPopup exRowNA = pre ++ "N/A" ++ mid ++ "N/A" ++ post) :=
  modis_popup_renders_na_for_missing_fields exRowNA rfl rfl

/-- Counterexample for C7: at the empty table, even with a destination path
supplied, the function raises folium's NaN-location `ValueError` before
returning a map or writing HTML, so the claim's "for every input" fails. -/
theorem plot_matches_save_raises_on_empty_table :
    plot_matches_interactive_map [] true (some "matches_map.html")
      = Except.error "ValueError: Location values cannot contain NaNs" := rfl

/-- C7 (amended to tables with at least one row, where no error intervenes):
`plot_matches_interactive_map` returns the in-memory map object — the same
map whether or not a destination is given — and emits the save-HTML effect
exactly when a destination path is supplied. -/
theorem plot_matches_returns_map_and_saves_iff (matches_df : List MatchRow)
    (show_lines : Bool) (save_html : Option String) (h : matches_df ≠ []) :
    ∃ m effs, plot_matches_interactive_map matches_df show_lines save_html
        = Except.ok (m, effs) ∧
      plot_matches_interactive_map matches_df show_lines none = Except.ok (m, []) ∧
      (∀ p, Effect.saveHtml p ∈ effs ↔ save_html = some p) := by
  refine ⟨_, _, plot_matches_ok_of_ne_nil matches_df show_lines save_html h,
    plot_matches_ok_of_ne_nil matches_df show_lines none h, ?_⟩
  cases save_html <;> simp [eq_comm]

/-- Witness for C7 at a one-row table with a destination path. -/
theorem plot_matches_returns_map_and_saves_iff_witness :
    ∃ m effs, plot_matches_interactive_map [exRow] true (some "matches_map.html")
        = Except.ok (m, effs) ∧
      plot_matches_interactive_map [exRow] true none = Except.ok (m, []) ∧
      (∀ p, Effect.saveHtml p ∈ effs ↔ (some "matches_map.html" : Option String) = some p) :=
  plot_matches_returns_map_and_saves_iff [exRow] true (some "matches_map.html") (by simp)

/-- C8: none of the four functions creates, mutates or deletes a row of the
input table: applying each function's table operations leaves the table
exactly as it was. -/
theorem plotting_functions_table_readonly (df : List MatchRow) :
    List.foldl applyDfOp df plot_matches_tableOps = df ∧
    List.foldl applyDfOp df create_map_screenshot_tableOps = df ∧
    List.foldl applyDfOp df plot_histogram_tableOps = df ∧
    List.foldl applyDfOp df plot_time_distance_tableOps = df := by
  simp [plot_matches_tableOps, create_map_screenshot_tableOps,
    plot_histogram_tableOps, plot_time_distance_tableOps, applyDfOp]

/-- C9: on the empty table the centre computation of lines 37-38 itself does
not raise — it completes, with both centre coordinates NaN (`none`) rather
than valid latitude/longitude values — so the spec's ≥ 1-row precondition is
necessary for a well-defined centre; the NaN pair then makes the `folium.Map`
constructor at line 40 raise its location `ValueError`. -/
theorem plot_matches_empty_table_center_nan :
    mapCenter [] = (none, none) ∧
    ∀ (show_lines : Bool) (save_html : Option String),
      plot_matches_interactive_map [] show_lines save_html
        = Except.error "ValueError: Location values cannot contain NaNs" :=
  ⟨rfl, fun _ _ => rfl⟩

/-- C10: `create_map_screenshot` formats the time columns with the strftime
pattern `%Y-%m-%d %H:%M`, so a plain-string `modis_time` raises a formatting
`ValueError` (before anything is written), while
`plot_matches_interactive_map` interpolates the same field with plain string
conversion and still produces its map and popups. -/
theorem screenshot_requires_datetime_interactive_does_not (row : MatchRow) (v : String)
    (center : ℚ × ℚ) (zoom w ht : Nat) (out : String) (show_lines lo so : Bool)
    (s0 : SysState) (hs : row.modis_time = TimeValue.str v) :
    create_map_screenshot [row] center zoom w ht out show_lines s0 lo so
        = Except.error ("ValueError: Invalid format specifier", s0) ∧
    (∃ m effs, plot_matches_interactive_map [row] show_lines none = Except.ok (m, effs) ∧
      m.markerPopups = [some (modisPopup row), some (viirsPopup row)]) := by
  constructor
  · simp [create_map_screenshot, buildScreenshotMap, screenshotOverlays,
      screenshotModisMarker, pyFormatTime, hs, Except.map, Bind.bind, Except.bind]
  · refine ⟨_, _, plot_matches_ok_of_ne_nil [row] show_lines none (by simp), ?_⟩
    cases show_lines <;>
      simp [FoliumMap.markerPopups, interactiveChildren, modisGroup, viirsGroup,
        linesGroup, MapChild.popups, Overlay.popupOf, modisMarker, viirsMarker, matchLine]

/-- Witness for C10 at a concrete row whose `modis_time` is a plain string. -/
theorem screenshot_requires_datetime_interactive_does_not_witness :
    create_map_screenshot [exRowStr] (0, 0) 13 800 600 "map_screenshot.png" true
        ⟨[], false⟩ true true
      = Except.error ("ValueError: Invalid format specifier", ⟨[], false⟩) ∧
    (∃ m effs, plot_matches_interactive_map [exRowStr] true none = Except.ok (m, effs) ∧
      m.markerPopups = [some (modisPopup exRowStr), some (viirsPopup exRowStr)]) :=
  screenshot_requires_datetime_interactive_does_not exRowStr "2024-05-01 10:30:00"
    (0, 0) 13 800 600 "map_screenshot.png" true true true ⟨[], false⟩ rfl

end Wildfire
